import Mathlib

/-!
# Verification of `remote_connect.py` (suvambh/vms_remote_connect)

Shallow embedding of the module `src/remote_connect.py` and proofs about the
spec's claims.  The remote side (paramiko) is modelled by an oracle that maps
each executed command string to its stdout line stream, its stderr text and
its exit code; the observable behaviour of each Python function is captured
as a list of events (network operations and `print` calls) in the order the
Python code performs them.
-/

set_option autoImplicit false

namespace RemoteConnect

/-! ## Python string primitives

The helpers below model the Python `str` methods used in the source
(`strip`, `rstrip`, `split('=', 1)`, `split()`, `startswith`, `in`, `join`,
`int(...)`).  They work on `List Char` so that every definition is
structurally recursive and kernel-evaluable.  Unicode-specific whitespace
and `int` underscore grouping are outside the character range exercised by
the source's config files and are not modelled.
-/

/-- The whitespace characters stripped by Python's `str.strip()` (ASCII range). -/
def pyWS (c : Char) : Bool :=
  c = ' ' || c = '\t' || c = '\n' || c = '\r' || c = '\x0b' || c = '\x0c'

/-- Strip leading and trailing whitespace from a character list. -/
def stripList (l : List Char) : List Char :=
  ((l.dropWhile pyWS).reverse.dropWhile pyWS).reverse

/-- Python `s.strip()`. -/
def pyStrip (s : String) : String := ⟨stripList s.data⟩

/-- Python `s.rstrip()`. -/
def pyRstrip (s : String) : String := ⟨(s.data.reverse.dropWhile pyWS).reverse⟩

/-- Python `s.startswith(p)`. -/
def startsWithStr (p s : String) : Bool := s.data.take p.data.length = p.data

/-- Python `c in s` for a single character `c`. -/
def containsChar (c : Char) (s : String) : Bool := s.data.contains c

/-- Split a character list at the first occurrence of `c`; `none` if absent. -/
def breakAt (c : Char) : List Char → Option (List Char × List Char)
  | [] => none
  | x :: xs =>
    if x = c then some ([], xs)
    else (breakAt c xs).map (fun p => (x :: p.1, p.2))

/-- Python `s.split(c, 1)` unpacked into the two pieces; `none` when `c` is
absent from `s` (in which case the Python two-variable unpacking would fail). -/
def splitFirstChar (c : Char) (s : String) : Option (String × String) :=
  (breakAt c s.data).map (fun p => (⟨p.1⟩, ⟨p.2⟩))

/-- Auxiliary accumulator-based splitter for `pySplitWs`. -/
def splitWsAux : List Char → List Char → List String
  | [], acc => if acc.isEmpty then [] else [⟨acc.reverse⟩]
  | c :: cs, acc =>
    if pyWS c then
      if acc.isEmpty then splitWsAux cs [] else ⟨acc.reverse⟩ :: splitWsAux cs []
    else splitWsAux cs (c :: acc)

/-- Python `s.split()` (no separator): split on whitespace runs, no empty pieces. -/
def pySplitWs (s : String) : List String := splitWsAux s.data []

/-- Value of a nonempty all-digit character list, `none` otherwise. -/
def digitsToNat : List Char → Option Nat
  | [] => none
  | l =>
    if l.all Char.isDigit then
      some (l.foldl (fun n c => 10 * n + (c.toNat - '0'.toNat)) 0)
    else none

/-- Python `int(s)` for decimal literals: surrounding whitespace allowed,
optional sign, then digits; `none` models a raised `ValueError`. -/
def pyInt (s : String) : Option Int :=
  match stripList s.data with
  | '-' :: rest => (digitsToNat rest).map (fun n => -(n : Int))
  | '+' :: rest => (digitsToNat rest).map (fun n => (n : Int))
  | l => (digitsToNat l).map (fun n => (n : Int))

/-- Python `sep.join(pieces)`. -/
def joinWith (sep : String) : List String → String
  | [] => ""
  | [s] => s
  | s :: rest => s ++ sep ++ joinWith sep rest

/-- Concatenation of a list of strings (Python `"".join`). -/
def concatAll (l : List String) : String := l.foldl (· ++ ·) ""

/-! ## Config values and the configuration loader (`load_connection_config`) -/

/-- A value stored in the configuration dictionary: Python stores the `port`
value as an `int` and every other value as a `str`. -/
inductive CVal where
  | str : String → CVal
  | intv : Int → CVal
  deriving DecidableEq, Repr

/-- Python dict assignment `config[key] = value` on an insertion-ordered
association list: replace the binding in place if the key is present,
otherwise append it. -/
def assign : List (String × CVal) → String → CVal → List (String × CVal)
  | [], k, v => [(k, v)]
  | (k', v') :: rest, k, v =>
    if k' = k then (k, v) :: rest else (k', v') :: assign rest k v

/-- Python dict lookup `cfg[key]` as an option. -/
def lookupCfg (k : String) : List (String × CVal) → Option CVal
  | [] => none
  | (k0, v) :: rest => if k = k0 then some v else lookupCfg k rest

/-- One iteration of the `for line in f` loop of `load_connection_config`
(src/remote_connect.py lines 41-50).  `none` models the `ValueError` raised
by `int(value)` on a malformed port value. -/
def processLine (cfg : List (String × CVal)) (rawLine : String) :
    Option (List (String × CVal)) :=
  let line := pyStrip rawLine
  if containsChar '=' line && !startsWithStr "#" line then
    match splitFirstChar '=' line with
    | none => none
    | some (k, v) =>
      let key := pyStrip k
      let value := pyStrip v
      if key = "port" then
        match pyInt value with
        | none => none
        | some n => some (assign cfg key (CVal.intv n))
      else some (assign cfg key (CVal.str value))
  else some cfg

/-- The loop of `load_connection_config` over the file's lines. -/
def processLines (cfg : List (String × CVal)) : List String → Option (List (String × CVal))
  | [] => some cfg
  | l :: ls =>
    match processLine cfg l with
    | none => none
    | some cfg' => processLines cfg' ls

/-- Embedding of `load_connection_config` (src/remote_connect.py lines
23-51), with the file contents given as its list of lines.  `none` models an uncaught
`ValueError` from `int(value)`. -/
def load_connection_config (lines : List String) : Option (List (String × CVal)) :=
  processLines [] lines

/-! ## Credentials and `initialize_connection` -/

/-- The four module-level connection globals `hostname, port, username,
password` of src/remote_connect.py, in the case where they are all set. -/
structure Creds where
  hostname : String
  port : Int
  username : String
  password : String
  deriving DecidableEq, Repr

/-- Embedding of `initialize_connection` (src/remote_connect.py lines 54-82).

* `fileLines` is the content of `connection_config.txt` as a list of lines,
  `none` meaning the file is absent (`FileNotFoundError`).
* `canConnect` is the network oracle: `false` means
  `paramiko.SSHClient.connect` raises for those credentials.

The result is `Except`-typed so that an exception escaping the Python
function would be an `Except.error`; since every statement of the Python
body sits inside `try ... except FileNotFoundError ... except Exception`,
each failure path (missing file, `int()` `ValueError` inside the loader,
`KeyError` on a missing config key, a connect failure) is caught there and
turned into the `(None, None, None, None)` return value, embedded as
`Except.ok none`.  The function's `print` calls are not modelled. -/
def initialize_connection (fileLines : Option (List String))
    (canConnect : Creds → Bool) : Except String (Option Creds) :=
  match fileLines with
  | none => Except.ok none
  | some lines =>
    match load_connection_config lines with
    | none => Except.ok none
    | some secrets =>
      match lookupCfg "hostname" secrets, lookupCfg "port" secrets,
          lookupCfg "username" secrets, lookupCfg "password" secrets with
      | some (CVal.str h), some (CVal.intv p), some (CVal.str u), some (CVal.str pw) =>
        if canConnect ⟨h, p, u, pw⟩ then Except.ok (some ⟨h, p, u, pw⟩)
        else Except.ok none
      | _, _, _, _ => Except.ok none

/-- Python truthiness of the global `hostname` after `initialize_connection`:
the guard `if not hostname:` at the top of `vms` and `setup_venv` is taken
when the globals are the `None` quadruple or when `hostname` is the empty
string. -/
def hostConfigured : Option Creds → Bool
  | none => false
  | some c => !(c.hostname = "")

/-! ## Events and the remote-side oracle -/

/-- Observable events of a `vms` / `setup_venv` call, in program order:
network operations on the paramiko client and `print` calls. -/
inductive Ev where
  /-- `client.connect(hostname=..., port=..., username=..., ...)`. -/
  | connect (host : String) (port : Int) (user : String) : Ev
  /-- `client.exec_command(cmd)`. -/
  | exec (cmd : String) : Ev
  /-- `stdout.read()` on the channel of `cmd`, draining stdout. -/
  | readStdout (cmd : String) : Ev
  /-- `stderr.read()` on the channel of `cmd`, draining stderr. -/
  | readStderr (cmd : String) : Ev
  /-- One `stdout.readline()` call on the channel of `cmd`. -/
  | readLine (cmd : String) : Ev
  /-- `stdout.channel.recv_exit_status()` on the channel of `cmd`; the value
  received is recorded. -/
  | recvExit (cmd : String) (code : Int) : Ev
  /-- `client.close()`. -/
  | closeConn : Ev
  /-- A `print(s)` call. -/
  | print (s : String) : Ev
  deriving DecidableEq, Repr

/-- What the remote host answers for one executed command: the stdout line
stream as successive `readline()` results, the stderr text, and the command's
exit status. -/
structure RemoteOut where
  stdoutLines : List String
  stderr : String
  exitCode : Int

/-- Full `stdout.read()` contents: the concatenation of the line stream. -/
def RemoteOut.stdoutAll (r : RemoteOut) : String := concatAll r.stdoutLines

/-- The remote-side oracle: the behaviour of each command when executed. -/
def Oracle : Type := String → RemoteOut

/-- The commands executed in a trace, in order. -/
def execCmds (tr : List Ev) : List String :=
  tr.filterMap fun e =>
    match e with
    | Ev.exec c => some c
    | _ => none

/-- The strings printed in a trace, in order. -/
def printed (tr : List Ev) : List String :=
  tr.filterMap fun e =>
    match e with
    | Ev.print s => some s
    | _ => none

/-- The `(command, exit status)` pairs read in a trace, in order. -/
def exitReads (tr : List Ev) : List (String × Int) :=
  tr.filterMap fun e =>
    match e with
    | Ev.recvExit c n => some (c, n)
    | _ => none

/-! ## The `vms` cell magic -/

/-- The error message printed by `vms` and `setup_venv` when no connection
is configured (src/remote_connect.py lines 121 and 226). -/
def errNotConnected : String :=
  "✗ Error: No connection configured. Please run initialize_connection() first."

/-- The remote probe issued by `vms` when no explicit venv is named
(src/remote_connect.py line 175). -/
def probeCmd : String := "test -f ml_env/bin/python3 && echo \"yes\" || echo \"no\""

/-- The mode arguments of `vms` after parsing (src/remote_connect.py
lines 144-166). -/
structure PyMode where
  venv : Option String
  persistentMode : Bool
  filename : String
  deriving DecidableEq, Repr

/-- Parse the (already stripped) magic line of a python-mode `vms` call
(src/remote_connect.py lines 149-166).  `none` models the `IndexError`
raised by `rest_parts[0]` when nothing follows the colon. -/
def parsePyMode (line : String) : Option PyMode :=
  if containsChar ':' line then
    match splitFirstChar ':' line with
    | none => none
    | some (_, rest) =>
      match pySplitWs (pyStrip rest) with
      | [] => none
      | v :: tail =>
        match tail with
        | t1 :: trest =>
          if t1 = "persistent" then some ⟨some v, true, trest.headD "persistent.py"⟩
          else some ⟨some v, false, "persistent.py"⟩
        | [] => some ⟨some v, false, "persistent.py"⟩
  else
    match pySplitWs line with
    | _ :: t1 :: trest =>
      if t1 = "persistent" then some ⟨none, true, trest.headD "persistent.py"⟩
      else some ⟨none, false, "persistent.py"⟩
    | _ => some ⟨none, false, "persistent.py"⟩

/-- The blocking execute-and-print pattern shared by all three `vms` modes
(src/remote_connect.py lines 132-141, 182-191, 196-205): issue the command,
read stdout to completion, read stderr to completion, close the client,
print `STDERR: <errors>` when stderr is nonempty, print stdout when
nonempty.  No exit status is requested anywhere in this pattern. -/
def execBlockPrint (σ : Oracle) (cmd : String) : List Ev :=
  let r := σ cmd
  [Ev.exec cmd, Ev.readStdout cmd, Ev.readStderr cmd, Ev.closeConn]
    ++ (if r.stderr = "" then [] else [Ev.print ("STDERR: " ++ r.stderr)])
    ++ (if r.stdoutAll = "" then [] else [Ev.print r.stdoutAll])

/-- The `vms` cell magic (src/remote_connect.py lines 89-205) over globals
`g`, magic line `line`, cell body `cell` and remote oracle `σ`.  The result
is `Except.error "IndexError"` on the one uncaught-exception path
(`%%vms python:` with nothing after the colon); otherwise the event trace.
The `client.connect` call itself is assumed to succeed (its possible failure
at magic time is not in any claim). -/
def vms (g : Option Creds) (line cell : String) (σ : Oracle) :
    Except String (List Ev) :=
  match g with
  | none => Except.ok [Ev.print errNotConnected]
  | some c =>
    if c.hostname = "" then Except.ok [Ev.print errNotConnected]
    else
      let conn := Ev.connect c.hostname c.port c.username
      let l := pyStrip line
      if l = "" || !startsWithStr "python" l then
        Except.ok (conn :: execBlockPrint σ cell)
      else
        match parsePyMode l with
        | none => Except.error "IndexError"
        | some m =>
          let probeEvs : List Ev :=
            match m.venv with
            | some _ => []
            | none => [Ev.exec probeCmd, Ev.readStdout probeCmd]
          let python_cmd : String :=
            match m.venv with
            | some v => v ++ "/bin/python3"
            | none =>
              if pyStrip (σ probeCmd).stdoutAll = "yes" then "ml_env/bin/python3"
              else "python3"
          if m.persistentMode then
            let command := "cat >> " ++ m.filename ++ " << EOF\n" ++ cell ++ "\nEOF\n"
              ++ python_cmd ++ " " ++ m.filename
            Except.ok (conn :: probeEvs ++ execBlockPrint σ command)
          else
            let command := python_cmd ++ " << EOF\n" ++ cell ++ "\nEOF"
            Except.ok (conn :: probeEvs ++ execBlockPrint σ command)

/-- The event trace of a `vms` call, empty on the `IndexError` path. -/
def vmsEv (g : Option Creds) (line cell : String) (σ : Oracle) : List Ev :=
  match vms g line cell σ with
  | Except.ok t => t
  | Except.error _ => []

/-! ## `setup_venv` -/

/-- The default package list of `setup_venv` (src/remote_connect.py line 230). -/
def defaultPackages : List String := ["numpy", "pandas", "matplotlib"]

/-- Python `"=" * 60`. -/
def eq60 : String := String.mk (List.replicate 60 (Char.ofNat 61))

/-- The `while True: line = stdout.readline(); if not line: break; print(...)`
loop of `setup_venv` step 4 (src/remote_connect.py lines 277-281): one
`readline` event per iteration, printing the rstripped line indented by three
spaces; the loop ends at the first empty `readline` result. -/
def streamEvs (cmd : String) : List String → List Ev
  | [] => [Ev.readLine cmd]
  | l :: ls =>
    if l = "" then [Ev.readLine cmd]
    else Ev.readLine cmd :: Ev.print ("   " ++ pyRstrip l) :: streamEvs cmd ls

/-- Embedding of `setup_venv` (src/remote_connect.py lines 208-301) as its
event trace. -/
def setup_venvEv (g : Option Creds) (venv_name : String)
    (packages : Option (List String)) (force_reinstall : Bool) (σ : Oracle) :
    List Ev :=
  match g with
  | none => [Ev.print errNotConnected]
  | some c =>
    if c.hostname = "" then [Ev.print errNotConnected]
    else
      let pk := packages.getD defaultPackages
      let step1 : List Ev :=
        if force_reinstall then
          let cmd := "rm -rf " ++ venv_name
          [Ev.print "\n1. Removing existing virtual environment...",
           Ev.exec cmd, Ev.recvExit cmd (σ cmd).exitCode,
           Ev.print "   ✓ Cleaned up old environment"]
        else []
      let testCmd := "test -d " ++ venv_name ++ " && echo \"exists\" || echo \"not found\""
      let step2 : List Ev :=
        [Ev.print "\n2. Checking for existing virtual environment...",
         Ev.exec testCmd, Ev.readStdout testCmd]
          ++ (if pyStrip (σ testCmd).stdoutAll = "not found" then
                let cmd := "python3 -m venv " ++ venv_name
                [Ev.print ("   Creating new virtual environment: " ++ venv_name),
                 Ev.exec cmd, Ev.recvExit cmd (σ cmd).exitCode,
                 Ev.print "   ✓ Virtual environment created"]
              else
                [Ev.print ("   ✓ Virtual environment already exists: " ++ venv_name)])
      let upCmd := venv_name ++ "/bin/pip install --upgrade pip"
      let step3 : List Ev :=
        [Ev.print "\n3. Upgrading pip...",
         Ev.exec upCmd, Ev.recvExit upCmd (σ upCmd).exitCode,
         Ev.print "   ✓ Pip upgraded"]
      let packages_str := joinWith " " pk
      let insCmd := venv_name ++ "/bin/pip install " ++ packages_str
      let step4 : List Ev :=
        [Ev.print "\n4. Installing packages...",
         Ev.print ("   Installing: " ++ packages_str),
         Ev.exec insCmd]
          ++ streamEvs insCmd (σ insCmd).stdoutLines
          ++ [Ev.recvExit insCmd (σ insCmd).exitCode]
      let pattern := joinWith "|" pk
      let verCmd := venv_name ++ "/bin/pip list | grep -E \"" ++ pattern ++ "\""
      let step5 : List Ev :=
        [Ev.print "\n5. Verifying installation...",
         Ev.exec verCmd, Ev.readStdout verCmd,
         Ev.print ("\n   Installed packages:\n" ++ (σ verCmd).stdoutAll)]
      let closing : List Ev :=
        [Ev.closeConn,
         Ev.print ("\n" ++ eq60),
         Ev.print "✓ Virtual environment setup complete!",
         Ev.print "\nUsage:",
         Ev.print ("   %%vms python:" ++ venv_name),
         Ev.print ("   %%vms python:" ++ venv_name ++ " persistent script.py"),
         Ev.print eq60]
      Ev.connect c.hostname c.port c.username
        :: Ev.print ("Setting up virtual environment: " ++ venv_name)
        :: Ev.print eq60
        :: (step1 ++ step2 ++ step3 ++ step4 ++ step5 ++ closing)

/-! ## Keepalive loop (modelled from the spec) -/

/-- Modelled from the spec: the transport's state as observed by one
keepalive check.  The background keepalive thread of the spec's
RemoteSession is not present in src/remote_connect.py (it belongs to the
repository variant outside src/); `raises` stands for an exception thrown
during the check. -/
inductive KAStatus where
  | active
  | inactive
  | raises
  deriving DecidableEq, Repr

/-- Modelled from the spec: an observable action of the keepalive thread. -/
inductive KAEv where
  | sleep60
  | sendKeepalive
  | markDisconnected
  deriving DecidableEq, Repr

/-- Modelled from the spec: the keepalive loop, absent from
src/remote_connect.py.  Per the spec's section 4.6: every 60 seconds, if the
transport reports itself active, send a no-op keepalive signal; if not
active, mark the session disconnected and exit the loop; any exception
during the check is treated as connection loss (mark disconnected, exit).
The loop is run against a finite observation horizon of per-tick transport
statuses; the returned Bool is the session's `connected` flag afterwards. -/
def keepaliveRun : List KAStatus → Bool × List KAEv
  | [] => (true, [])
  | s :: rest =>
    match s with
    | KAStatus.active =>
      let r := keepaliveRun rest
      (r.1, KAEv.sleep60 :: KAEv.sendKeepalive :: r.2)
    | _ => (false, [KAEv.sleep60, KAEv.markDisconnected])

/-! ## Spec-side reformulation of the config loader

For claim C2 the loader is re-expressed, following the (amended) spec words,
as parse-each-line-independently followed by apply-in-order: a line is kept
exactly when, after stripping, it contains an `=` and does not begin with
`#`; a kept line is split on its first `=`, key and value stripped, the
`port` value read as an integer and every other value kept as a string;
bindings are applied in file order, a later binding for a key overwriting
the earlier one. -/

/-- What a single config line contributes: `none` = `int()` failure on a
port value, `some none` = line skipped, `some (some (k, v))` = one binding. -/
def parseEntry (rawLine : String) : Option (Option (String × CVal)) :=
  if !containsChar '=' (pyStrip rawLine) || startsWithStr "#" (pyStrip rawLine) then
    some none
  else
    match splitFirstChar '=' (pyStrip rawLine) with
    | none => none
    | some (k, v) =>
      if pyStrip k = "port" then
        (pyInt (pyStrip v)).map (fun n => some (pyStrip k, CVal.intv n))
      else some (some (pyStrip k, CVal.str (pyStrip v)))

/-- Apply one parsed line to the accumulated mapping. -/
def applyEntry (cfg : List (String × CVal)) : Option (String × CVal) →
    List (String × CVal)
  | none => cfg
  | some (k, v) => assign cfg k v

/-- The loader per the spec's words: parse every line, then apply the
bindings in order starting from the empty mapping. -/
def loadSpec (lines : List String) : Option (List (String × CVal)) :=
  (lines.mapM parseEntry).map (fun es => es.foldl applyEntry [])

/-! ## Concrete fixtures used by counterexamples and witnesses -/

/-- A concrete connected-credentials value. -/
def creds0 : Creds := ⟨"host", 22, "user", "pw"⟩

/-- A concrete oracle: every command prints one line and exits 0. -/
def σ0 : Oracle := fun _ => ⟨["file1\n"], "", 0⟩

/-- The pip-install command issued by
`setup_venv (some creds0) "ml_env" none …`. -/
def insCmd0 : String := "ml_env/bin/pip install numpy pandas matplotlib"

/-- Oracle for the C6 counterexample: like `σc6b` in every stream but with
exit code `0` for the install command. -/
def σc6a : Oracle := fun _ => ⟨["Collecting numpy\n", "done\n"], "", 0⟩

/-- Oracle for the C6 counterexample: identical to `σc6a` except that the
pip-install command exits with code `1`. -/
def σc6b : Oracle := fun cmd =>
  if cmd = insCmd0 then ⟨["Collecting numpy\n", "done\n"], "", 1⟩
  else ⟨["Collecting numpy\n", "done\n"], "", 0⟩

/-! ## Helper lemmas -/

@[simp] lemma execCmds_nil : execCmds [] = [] := rfl

@[simp] lemma execCmds_connect (h : String) (p : Int) (u : String) (tr : List Ev) :
    execCmds (Ev.connect h p u :: tr) = execCmds tr := rfl

@[simp] lemma execCmds_exec (cmd : String) (tr : List Ev) :
    execCmds (Ev.exec cmd :: tr) = cmd :: execCmds tr := rfl

@[simp] lemma execCmds_readStdout (cmd : String) (tr : List Ev) :
    execCmds (Ev.readStdout cmd :: tr) = execCmds tr := rfl

@[simp] lemma execCmds_readStderr (cmd : String) (tr : List Ev) :
    execCmds (Ev.readStderr cmd :: tr) = execCmds tr := rfl

@[simp] lemma execCmds_readLine (cmd : String) (tr : List Ev) :
    execCmds (Ev.readLine cmd :: tr) = execCmds tr := rfl

@[simp] lemma execCmds_recvExit (cmd : String) (n : Int) (tr : List Ev) :
    execCmds (Ev.recvExit cmd n :: tr) = execCmds tr := rfl

@[simp] lemma execCmds_close (tr : List Ev) :
    execCmds (Ev.closeConn :: tr) = execCmds tr := rfl

@[simp] lemma execCmds_print (s : String) (tr : List Ev) :
    execCmds (Ev.print s :: tr) = execCmds tr := rfl

@[simp] lemma execCmds_append (a b : List Ev) :
    execCmds (a ++ b) = execCmds a ++ execCmds b := by
  simp [execCmds, List.filterMap_append]

@[simp] lemma execCmds_streamEvs (cmd : String) (ls : List String) :
    execCmds (streamEvs cmd ls) = [] := by
  induction ls with
  | nil => rfl
  | cons l ls ih =>
    by_cases hl : l = ""
    · simp [streamEvs, hl]
    · simp [streamEvs, hl, ih]

lemma execCmds_execBlockPrint (σ : Oracle) (cmd : String) :
    execCmds (execBlockPrint σ cmd) = [cmd] := by
  unfold execBlockPrint
  by_cases h1 : (σ cmd).stderr = "" <;> by_cases h2 : (σ cmd).stdoutAll = "" <;>
    simp [h1, h2]

lemma vms_disconnected (g : Option Creds) (line cell : String) (σ : Oracle)
    (hg : hostConfigured g = false) :
    vms g line cell σ = Except.ok [Ev.print errNotConnected] := by
  cases g with
  | none => rfl
  | some c =>
    have hh : c.hostname = "" := by simpa [hostConfigured] using hg
    simp [vms, hh]

lemma setup_venv_disconnected (g : Option Creds) (venv : String)
    (pkgs : Option (List String)) (force : Bool) (σ : Oracle)
    (hg : hostConfigured g = false) :
    setup_venvEv g venv pkgs force σ = [Ev.print errNotConnected] := by
  cases g with
  | none => rfl
  | some c =>
    have hh : c.hostname = "" := by simpa [hostConfigured] using hg
    simp [setup_venvEv, hh]

lemma processLine_eq (cfg : List (String × CVal)) (l : String) :
    processLine cfg l = (parseEntry l).map (applyEntry cfg) := by
  simp only [processLine, parseEntry]
  by_cases hc : containsChar '=' (pyStrip l) = true
  · by_cases hs : startsWithStr "#" (pyStrip l) = true
    · simp [hc, hs, applyEntry]
    · simp only [Bool.not_eq_true] at hs
      simp only [hc, hs, Bool.not_false, Bool.and_true, Bool.not_true, Bool.false_or,
        if_true, if_false]
      cases hsp : splitFirstChar '=' (pyStrip l) with
      | none => simp
      | some kv =>
        obtain ⟨k, v⟩ := kv
        by_cases hk : pyStrip k = "port"
        · cases hi : pyInt (pyStrip v) with
          | none => simp [hk, hi]
          | some n => simp [hk, hi, applyEntry]
        · simp [hk, applyEntry]
  · simp only [Bool.not_eq_true] at hc
    simp [hc, applyEntry]

lemma processLines_eq (lines : List String) : ∀ cfg : List (String × CVal),
    processLines cfg lines
      = (lines.mapM parseEntry).map (fun es => es.foldl applyEntry cfg) := by
  induction lines with
  | nil => intro cfg; rfl
  | cons l ls ih =>
    intro cfg
    simp only [processLines, processLine_eq, List.mapM_cons]
    cases hp : parseEntry l with
    | none => simp [hp]
    | some e =>
      show processLines (applyEntry cfg e) ls = _
      rw [ih (applyEntry cfg e)]
      cases hm : ls.mapM parseEntry with
      | none => simp [hm]
      | some es => simp [hm, List.foldl_cons]

/-- The configuration loader equals its parse-then-apply reformulation. -/
lemma load_eq_spec (lines : List String) :
    load_connection_config lines = loadSpec lines :=
  processLines_eq lines []

lemma lookupCfg_assign_self (cfg : List (String × CVal)) (k : String) (v : CVal) :
    lookupCfg k (assign cfg k v) = some v := by
  induction cfg with
  | nil => simp [assign, lookupCfg]
  | cons p rest ih =>
    obtain ⟨k0, v0⟩ := p
    by_cases hk : k0 = k
    · simp [assign, hk, lookupCfg]
    · simp [assign, hk, lookupCfg, Ne.symm hk, ih]

lemma lookupCfg_assign_ne (cfg : List (String × CVal)) (k k0 : String) (v : CVal)
    (h : k ≠ k0) :
    lookupCfg k (assign cfg k0 v) = lookupCfg k cfg := by
  induction cfg with
  | nil => simp [assign, lookupCfg, h]
  | cons p rest ih =>
    obtain ⟨k1, v1⟩ := p
    by_cases hk : k1 = k0
    · subst hk
      simp [assign, lookupCfg, h]
    · by_cases hk1 : k = k1 <;> simp [assign, hk, lookupCfg, hk1, ih]

/-- The typing discipline of one parsed config binding: the value under the
key `port` is an integer, every other value is a string. -/
def entryOk : Option (String × CVal) → Prop
  | none => True
  | some (k, v) =>
    (k = "port" → ∃ n, v = CVal.intv n) ∧ (k ≠ "port" → ∃ s, v = CVal.str s)

/-- The typing discipline over a whole configuration mapping. -/
def cfgOk (cfg : List (String × CVal)) : Prop :=
  ∀ k v, lookupCfg k cfg = some v →
    (k = "port" → ∃ n, v = CVal.intv n) ∧ (k ≠ "port" → ∃ s, v = CVal.str s)

lemma parseEntry_ok (l : String) (e : Option (String × CVal))
    (h : parseEntry l = some e) : entryOk e := by
  unfold parseEntry at h
  by_cases hcond : (!containsChar '=' (pyStrip l) || startsWithStr "#" (pyStrip l)) = true
  · rw [if_pos hcond] at h
    cases h
    trivial
  · rw [if_neg hcond] at h
    cases hsp : splitFirstChar '=' (pyStrip l) with
    | none => rw [hsp] at h; cases h
    | some kv =>
      obtain ⟨k, v⟩ := kv
      rw [hsp] at h
      simp only at h
      by_cases hk : pyStrip k = "port"
      · rw [if_pos hk] at h
        cases hi : pyInt (pyStrip v) with
        | none => rw [hi] at h; cases h
        | some n =>
          rw [hi] at h
          simp only [Option.map_some', Option.some.injEq] at h
          subst h
          exact ⟨fun _ => ⟨n, rfl⟩, fun hne => absurd hk hne⟩
      · rw [if_neg hk] at h
        cases h
        exact ⟨fun heq => absurd heq hk, fun _ => ⟨pyStrip v, rfl⟩⟩

lemma cfgOk_applyEntry (cfg : List (String × CVal)) (e : Option (String × CVal))
    (hc : cfgOk cfg) (he : entryOk e) : cfgOk (applyEntry cfg e) := by
  cases e with
  | none => exact hc
  | some kv =>
    obtain ⟨k0, v0⟩ := kv
    intro k v hl
    by_cases hk : k = k0
    · subst hk
      rw [applyEntry, lookupCfg_assign_self] at hl
      cases hl
      exact he
    · rw [applyEntry, lookupCfg_assign_ne cfg k k0 v0 hk] at hl
      exact hc k v hl

lemma cfgOk_foldl (es : List (Option (String × CVal))) :
    ∀ cfg : List (String × CVal), cfgOk cfg → (∀ e ∈ es, entryOk e) →
      cfgOk (es.foldl applyEntry cfg) := by
  induction es with
  | nil => intro cfg hc _; exact hc
  | cons e es ih =>
    intro cfg hc hok
    rw [List.foldl_cons]
    exact ih (applyEntry cfg e) (cfgOk_applyEntry cfg e hc (hok e (by simp)))
      (fun x hx => hok x (by simp [hx]))

lemma mapM_mem_option {α β : Type} (f : α → Option β) :
    ∀ (l : List α) (bs : List β), l.mapM f = some bs →
      ∀ b ∈ bs, ∃ a ∈ l, f a = some b := by
  intro l
  induction l with
  | nil =>
    intro bs h b hb
    rw [List.mapM_nil] at h
    simp only [Option.pure_def, Option.some.injEq] at h
    subst h
    cases hb
  | cons a as ih =>
    intro bs h b hb
    rw [List.mapM_cons] at h
    cases hfa : f a with
    | none => rw [hfa] at h; simp at h
    | some b0 =>
      rw [hfa] at h
      cases hm : as.mapM f with
      | none => rw [hm] at h; simp at h
      | some bs0 =>
        rw [hm] at h
        simp at h
        subst h
        rcases List.mem_cons.mp hb with hb1 | hb1
        · subst hb1
          exact ⟨a, List.mem_cons_self a as, hfa⟩
        · obtain ⟨a0, ha0, hfa0⟩ := ih bs0 hm b hb1
          exact ⟨a0, List.mem_cons_of_mem a ha0, hfa0⟩

/-- Every mapping produced by the loader obeys the typing discipline. -/
lemma load_cfgOk (lines : List String) (cfg : List (String × CVal))
    (h : load_connection_config lines = some cfg) : cfgOk cfg := by
  rw [load_eq_spec] at h
  unfold loadSpec at h
  cases hm : lines.mapM parseEntry with
  | none => rw [hm] at h; cases h
  | some es =>
    rw [hm] at h
    simp only [Option.map_some', Option.some.injEq] at h
    subst h
    refine cfgOk_foldl es [] (fun k v hl => by simp [lookupCfg] at hl) ?_
    intro e he
    obtain ⟨a, _, ha⟩ := mapM_mem_option parseEntry lines es hm e he
    exact parseEntry_ok a e ha

/-! ## Claim theorems -/

/-- Claim C1: every operation issued while the session is disconnected (the
connection globals unset, i.e. the Python guard `if not hostname:` fires)
fails fast with the not-connected error message and performs no network
call — no connect, no command execution — both for the cell magic `vms` and
for `setup_venv`. -/
theorem c1_disconnected_fails_fast (g : Option Creds) (line cell venv : String)
    (pkgs : Option (List String)) (force : Bool) (σ σ2 : Oracle)
    (hg : hostConfigured g = false) :
    vms g line cell σ = Except.ok [Ev.print errNotConnected]
    ∧ setup_venvEv g venv pkgs force σ2 = [Ev.print errNotConnected]
    ∧ execCmds (vmsEv g line cell σ) = []
    ∧ execCmds (setup_venvEv g venv pkgs force σ2) = [] := by
  have h1 := vms_disconnected g line cell σ hg
  have h2 := setup_venv_disconnected g venv pkgs force σ2 hg
  refine ⟨h1, h2, ?_, ?_⟩
  · simp [vmsEv, h1]
  · rw [h2]; rfl

/-- Witness for C1 at a concrete disconnected state. -/
theorem c1_witness :
    vms none "" "ls" σ0 = Except.ok [Ev.print errNotConnected]
    ∧ setup_venvEv none "ml_env" none false σ0 = [Ev.print errNotConnected]
    ∧ execCmds (vmsEv none "" "ls" σ0) = []
    ∧ execCmds (setup_venvEv none "ml_env" none false σ0) = [] :=
  c1_disconnected_fails_fast none "" "ls" "ml_env" none false σ0 σ0 rfl

/-- Counterexample for C2: a non-blank line that does not begin with `#` but
contains no `=` (here `"hello world"`) is skipped by the loader rather than
being split on its first `=`; the claim's reading, under which only blank
lines and `#`-lines are skipped and every remaining line contributes a
binding, is false for this file. -/
theorem c2_counterexample :
    load_connection_config ["hello world"] = some []
    ∧ pyStrip "hello world" ≠ ""
    ∧ startsWithStr "#" (pyStrip "hello world") = false := by
  refine ⟨by rfl, by decide, by rfl⟩

/-- Claim C2 (amended): the loader keeps exactly the lines that, after
stripping surrounding whitespace, contain an `=` and do not begin with `#`
(so lines without `=` are skipped as well); each kept line is split on its
first `=` with key and value stripped; the value under `port` is parsed as
an integer and every other value is stored as a string; later bindings for
a key overwrite earlier ones.  Formally: the loader coincides with the
parse-then-apply formulation `loadSpec` built from exactly those rules. -/
theorem c2_loader_refines (lines : List String) :
    load_connection_config lines = loadSpec lines :=
  load_eq_spec lines

/-- Counterexample for C3: the loader itself stores `port` as an integer
(not a string), and `initialize_connection` supplies no default for an
absent `port` key — with `port` missing it fails (returns the `None`
quadruple) even though the network oracle would accept any credentials,
rather than defaulting the port to 22. -/
theorem c3_counterexample :
    load_connection_config ["port = 2222"] = some [("port", CVal.intv 2222)]
    ∧ initialize_connection (some ["hostname=h", "username=u", "password=p"])
        (fun _ => true) = Except.ok none := by
  refine ⟨by rfl, by rfl⟩

/-- Claim C3 (amended): the loader, not the caller, converts `port` to an
integer; every other key is stored as a string; and the caller supplies no
defaults — if `port` is absent from the loaded mapping,
`initialize_connection` fails instead of defaulting it to 22. -/
theorem c3_loader_types_port (lines : List String) (cfg : List (String × CVal))
    (canConnect : Creds → Bool)
    (h : load_connection_config lines = some cfg) :
    (∀ v, lookupCfg "port" cfg = some v → ∃ n, v = CVal.intv n)
    ∧ (∀ k v, lookupCfg k cfg = some v → k ≠ "port" → ∃ s, v = CVal.str s)
    ∧ (lookupCfg "port" cfg = none →
        initialize_connection (some lines) canConnect = Except.ok none) := by
  have hok := load_cfgOk lines cfg h
  refine ⟨fun v hv => (hok "port" v hv).1 rfl,
    fun k v hv hk => (hok k v hv).2 hk, fun hport => ?_⟩
  simp only [initialize_connection, h]
  split
  · simp_all
  · rfl

/-- Witness for C3 at a concrete config file lacking a `port` line. -/
theorem c3_witness :
    initialize_connection (some ["hostname=h"]) (fun _ => true) = Except.ok none :=
  (c3_loader_types_port ["hostname=h"] [("hostname", CVal.str "h")] (fun _ => true)
    (by rfl)).2.2 (by rfl)

/-- Counterexample for C4: with a well-formed config file and a network
oracle on which connecting fails, `initialize_connection` returns normally
with the `(None, None, None, None)` sentinel (`Except.ok none`) — the
failure is caught inside the function and is not propagated to the caller
as an error. -/
theorem c4_counterexample :
    initialize_connection (some ["hostname=h", "port=22", "username=u", "password=p"])
      (fun _ => false) = Except.ok none := by rfl

/-- Claim C4 (amended): an authentication or network failure during
`initialize_connection` is caught inside the function (together with every
other failure of the body): a message is printed and the `None` quadruple is
returned, so no exception reaches the caller; the session is left
disconnected, and any subsequent operation on the disconnected globals
fails fast with the not-connected error. -/
theorem c4_connect_failure_swallowed (fileLines : Option (List String))
    (canConnect : Creds → Bool) (h : ∀ c, canConnect c = false) :
    initialize_connection fileLines canConnect = Except.ok none
    ∧ ∀ line cell σ, vms none line cell σ = Except.ok [Ev.print errNotConnected] := by
  constructor
  · cases fileLines with
    | none => rfl
    | some lines =>
      simp only [initialize_connection]
      split
      · rfl
      · split
        · simp [h]
        · rfl
  · intro line cell σ
    rfl

/-- Witness for C4 at a concrete config file and an always-failing network
oracle. -/
theorem c4_witness :
    initialize_connection (some ["hostname=x", "port=1", "username=y", "password=z"])
      (fun _ => false) = Except.ok none
    ∧ vms none "" "whoami" σ0 = Except.ok [Ev.print errNotConnected] :=
  ⟨(c4_connect_failure_swallowed
      (some ["hostname=x", "port=1", "username=y", "password=z"])
      (fun _ => false) (fun _ => rfl)).1,
   (c4_connect_failure_swallowed
      (some ["hostname=x", "port=1", "username=y", "password=z"])
      (fun _ => false) (fun _ => rfl)).2 "" "whoami" σ0⟩

/-- Counterexample for C5: a command run in the blocking mode of the cell
magic (`%%vms` shell mode).  The command is executed and its output read,
yet no exit status is ever requested on the channel — so the mode neither
produces the `(stdout, stderr, exit_code)` triple nor reads an exit code
after draining the streams. -/
theorem c5_counterexample :
    execCmds (vmsEv (some creds0) "" "ls -la" σ0) = ["ls -la"]
    ∧ exitReads (vmsEv (some creds0) "" "ls -la" σ0) = [] := by
  refine ⟨by decide, by decide⟩

/-- Claim C5 (amended): in the cell magic's blocking mode the command's
stdout is read to completion, then stderr to completion, the client is
closed and the streams are printed — no exit status is ever read and
nothing is returned; in `setup_venv` the non-streamed steps (here the
force-reinstall removal) read the exit status directly after issuing the
command, without draining the command's streams first. -/
theorem c5_blocking_reads (c : Creds) (line cell : String) (σ : Oracle)
    (hc : ¬ c.hostname = "")
    (hm : pyStrip line = "" ∨ startsWithStr "python" (pyStrip line) = false) :
    vms (some c) line cell σ
      = Except.ok (Ev.connect c.hostname c.port c.username
          :: ([Ev.exec cell, Ev.readStdout cell, Ev.readStderr cell, Ev.closeConn]
            ++ (if (σ cell).stderr = "" then []
                else [Ev.print ("STDERR: " ++ (σ cell).stderr)])
            ++ (if (σ cell).stdoutAll = "" then []
                else [Ev.print ((σ cell).stdoutAll)])))
    ∧ ∃ rest, setup_venvEv (some c) "ml_env" none true σ
        = [Ev.connect c.hostname c.port c.username,
           Ev.print "Setting up virtual environment: ml_env", Ev.print eq60,
           Ev.print "\n1. Removing existing virtual environment...",
           Ev.exec "rm -rf ml_env",
           Ev.recvExit "rm -rf ml_env" (σ "rm -rf ml_env").exitCode,
           Ev.print "   ✓ Cleaned up old environment"] ++ rest := by
  have hcond : (pyStrip line = "" || !startsWithStr "python" (pyStrip line)) = true := by
    rcases hm with h | h
    · simp [h]
    · simp [h]
  constructor
  · simp [vms, hc, hcond, execBlockPrint]
  · exact ⟨_, by simp [setup_venvEv, hc, List.append_assoc]; rfl⟩

/-- Witness for C5 at a concrete connected state and command. -/
theorem c5_witness :
    vms (some creds0) "" "ls -la" σ0
      = Except.ok (Ev.connect creds0.hostname creds0.port creds0.username
          :: ([Ev.exec "ls -la", Ev.readStdout "ls -la", Ev.readStderr "ls -la",
               Ev.closeConn]
            ++ (if (σ0 "ls -la").stderr = "" then []
                else [Ev.print ("STDERR: " ++ (σ0 "ls -la").stderr)])
            ++ (if (σ0 "ls -la").stdoutAll = "" then []
                else [Ev.print ((σ0 "ls -la").stdoutAll)]))) :=
  (c5_blocking_reads creds0 "" "ls -la" σ0 (by decide) (Or.inl (by decide))).1

/-- Counterexample for C7: a multi-line cell with a blank-free comment line.
The shell mode of the cell magic issues the whole cell as one single remote
command — no splitting on line breaks, no skipping of the `#` line, no
per-line channels — and prints only the stdout text, not the command. -/
theorem c7_counterexample :
    execCmds (vmsEv (some creds0) "" "echo a\n# comment\necho b" σ0)
      = ["echo a\n# comment\necho b"]
    ∧ printed (vmsEv (some creds0) "" "echo a\n# comment\necho b" σ0) = ["file1\n"] := by
  refine ⟨by decide, by decide⟩

/-- Claim C7 (amended): the cell magic's shell mode executes the entire
multi-line cell as one single blocking command invocation over one fresh
channel, printing any stderr (prefixed with STDERR:) and the stdout text;
it performs no line splitting, no comment skipping, and does not print the
command. -/
theorem c7_shell_mode_single_command (c : Creds) (cell : String) (σ : Oracle)
    (hc : ¬ c.hostname = "") :
    vms (some c) "" cell σ
      = Except.ok (Ev.connect c.hostname c.port c.username
          :: ([Ev.exec cell, Ev.readStdout cell, Ev.readStderr cell, Ev.closeConn]
            ++ (if (σ cell).stderr = "" then []
                else [Ev.print ("STDERR: " ++ (σ cell).stderr)])
            ++ (if (σ cell).stdoutAll = "" then []
                else [Ev.print ((σ cell).stdoutAll)])))
    ∧ execCmds (vmsEv (some c) "" cell σ) = [cell] := by
  have hcond : (decide (pyStrip "" = "") || !startsWithStr "python" (pyStrip "")) = true := by
    decide
  have h1 : vms (some c) "" cell σ
      = Except.ok (Ev.connect c.hostname c.port c.username :: execBlockPrint σ cell) := by
    simp [vms, hc, hcond]
  constructor
  · rw [h1]
    simp [execBlockPrint]
  · simp [vmsEv, h1, execCmds_execBlockPrint]

/-- Witness for C7 at a concrete connected state and a multi-line cell. -/
theorem c7_witness :
    execCmds (vmsEv (some creds0) "" "pwd\n# c\nwhoami" σ0) = ["pwd\n# c\nwhoami"] :=
  (c7_shell_mode_single_command creds0 "pwd\n# c\nwhoami" σ0 (by decide)).2

/-- Counterexample for C6: two runs of `setup_venv` that differ only in the
exit code of the streamed pip-install command (0 versus 1).  The exit status
is read from the channel (the traces record different received values), but
the printed output is identical and the routine returns nothing — so the
streaming mode does not return (or report) the final exit code, correct or
otherwise. -/
theorem c6_counterexample :
    printed (setup_venvEv (some creds0) "ml_env" none false σc6a)
      = printed (setup_venvEv (some creds0) "ml_env" none false σc6b)
    ∧ (σc6a insCmd0).exitCode ≠ (σc6b insCmd0).exitCode
    ∧ exitReads (setup_venvEv (some creds0) "ml_env" none false σc6a)
        ≠ exitReads (setup_venvEv (some creds0) "ml_env" none false σc6b) := by
  refine ⟨by decide, by decide, by decide⟩

/-- Claim C6 (amended): in the streaming step of `setup_venv`, the stdout
stream of the pip-install command is drained line by line — each available
line is printed as an output chunk as soon as it is read, so for a stream
whose first line is nonempty at least one chunk is emitted — and the exit
status is requested only after the drain finishes; the drain segment
consists solely of readline events and print events (no other channel
operation occurs inside it); however the received exit-status value is
discarded: `setup_venv` does not return it (see the counterexample). -/
theorem c6_stream_then_exit (c : Creds) (v : String) (pkgs : Option (List String))
    (force : Bool) (σ : Oracle) (cmd : String)
    (hc : ¬ c.hostname = "")
    (hcmd : cmd = v ++ "/bin/pip install " ++ joinWith " " (pkgs.getD defaultPackages)) :
    (∃ pre post, setup_venvEv (some c) v pkgs force σ
        = pre ++ Ev.exec cmd
            :: (streamEvs cmd (σ cmd).stdoutLines
              ++ Ev.recvExit cmd (σ cmd).exitCode :: post))
    ∧ (∀ lines, ∀ e ∈ streamEvs cmd lines,
        e = Ev.readLine cmd ∨ ∃ s, e = Ev.print s)
    ∧ (∀ l rest, l ≠ "" →
        Ev.print ("   " ++ pyRstrip l) ∈ streamEvs cmd (l :: rest)) := by
  obtain rfl := hcmd
  refine ⟨⟨Ev.connect c.hostname c.port c.username
      :: Ev.print ("Setting up virtual environment: " ++ v)
      :: Ev.print eq60
      :: ((if force then
            [Ev.print "\n1. Removing existing virtual environment...",
             Ev.exec ("rm -rf " ++ v),
             Ev.recvExit ("rm -rf " ++ v) (σ ("rm -rf " ++ v)).exitCode,
             Ev.print "   ✓ Cleaned up old environment"]
          else [])
        ++ Ev.print "\n2. Checking for existing virtual environment..."
          :: Ev.exec ("test -d " ++ v ++ " && echo \"exists\" || echo \"not found\"")
          :: Ev.readStdout ("test -d " ++ v ++ " && echo \"exists\" || echo \"not found\"")
          :: ((if pyStrip (σ ("test -d " ++ v ++ " && echo \"exists\" || echo \"not found\"")).stdoutAll
                  = "not found" then
                [Ev.print ("   Creating new virtual environment: " ++ v),
                 Ev.exec ("python3 -m venv " ++ v),
                 Ev.recvExit ("python3 -m venv " ++ v) (σ ("python3 -m venv " ++ v)).exitCode,
                 Ev.print "   ✓ Virtual environment created"]
              else [Ev.print ("   ✓ Virtual environment already exists: " ++ v)])
            ++ [Ev.print "\n3. Upgrading pip...",
                Ev.exec (v ++ "/bin/pip install --upgrade pip"),
                Ev.recvExit (v ++ "/bin/pip install --upgrade pip")
                  (σ (v ++ "/bin/pip install --upgrade pip")).exitCode,
                Ev.print "   ✓ Pip upgraded",
                Ev.print "\n4. Installing packages...",
                Ev.print ("   Installing: " ++ joinWith " " (pkgs.getD defaultPackages))])),
    [Ev.print "\n5. Verifying installation...",
     Ev.exec (v ++ "/bin/pip list | grep -E \"" ++ joinWith "|" (pkgs.getD defaultPackages) ++ "\""),
     Ev.readStdout (v ++ "/bin/pip list | grep -E \"" ++ joinWith "|" (pkgs.getD defaultPackages) ++ "\""),
     Ev.print ("\n   Installed packages:\n"
       ++ (σ (v ++ "/bin/pip list | grep -E \""
             ++ joinWith "|" (pkgs.getD defaultPackages) ++ "\"")).stdoutAll),
     Ev.closeConn, Ev.print ("\n" ++ eq60),
     Ev.print "✓ Virtual environment setup complete!",
     Ev.print "\nUsage:", Ev.print ("   %%vms python:" ++ v),
     Ev.print ("   %%vms python:" ++ v ++ " persistent script.py"), Ev.print eq60],
    by simp [setup_venvEv, hc, List.append_assoc]⟩, ?_, ?_⟩
  · intro lines
    induction lines with
    | nil =>
      intro e he
      rw [streamEvs] at he
      simp at he
      exact Or.inl he
    | cons l ls ih =>
      intro e he
      by_cases hl : l = ""
      · simp [streamEvs, hl] at he
        exact Or.inl he
      · simp only [streamEvs, if_neg hl, List.mem_cons] at he
        rcases he with he | he | he
        · exact Or.inl he
        · exact Or.inr ⟨_, he⟩
        · exact ih e he
  · intro l rest hl
    simp [streamEvs, hl]

/-- Witness for C6 at a concrete connected state and oracle. -/
theorem c6_witness :
    ∃ pre post, setup_venvEv (some creds0) "ml_env" none false σc6a
      = pre ++ Ev.exec insCmd0
          :: (streamEvs insCmd0 (σc6a insCmd0).stdoutLines
            ++ Ev.recvExit insCmd0 (σc6a insCmd0).exitCode :: post) :=
  (c6_stream_then_exit creds0 "ml_env" none false σc6a insCmd0 (by decide)
    (by decide)).1

/-- Claim C8: `setup_venv` issues, in order: when force-reinstall is
requested, the removal of the environment directory first; the existence
check; the venv-creation command only when the check answered "not found"
(no command and no error when it already exists); the explicit pip-upgrade
command; one single install command with the space-joined package list;
and the post-install verification command that filters the installed
listing by the requested package names joined by the alternation bar. -/
theorem c8_setup_venv_steps (c : Creds) (v : String) (pkgs : Option (List String))
    (force : Bool) (σ : Oracle) (pk : List String)
    (hc : ¬ c.hostname = "") (hpk : pk = pkgs.getD defaultPackages) :
    execCmds (setup_venvEv (some c) v pkgs force σ)
      = (if force then ["rm -rf " ++ v] else [])
        ++ ["test -d " ++ v ++ " && echo \"exists\" || echo \"not found\""]
        ++ (if pyStrip (σ ("test -d " ++ v
                ++ " && echo \"exists\" || echo \"not found\"")).stdoutAll = "not found"
            then ["python3 -m venv " ++ v] else [])
        ++ [v ++ "/bin/pip install --upgrade pip",
            v ++ "/bin/pip install " ++ joinWith " " pk,
            v ++ "/bin/pip list | grep -E \"" ++ joinWith "|" pk ++ "\""] := by
  subst hpk
  by_cases hf : force <;>
    by_cases he : pyStrip (σ ("test -d " ++ v
        ++ " && echo \"exists\" || echo \"not found\"")).stdoutAll = "not found" <;>
      simp [setup_venvEv, hc, hf, he]

/-- Witness for C8 at a concrete connected state with force-reinstall. -/
theorem c8_witness :
    execCmds (setup_venvEv (some creds0) "ml_env" none true σ0)
      = ["rm -rf ml_env",
         "test -d ml_env && echo \"exists\" || echo \"not found\"",
         "ml_env/bin/pip install --upgrade pip",
         "ml_env/bin/pip install numpy pandas matplotlib",
         "ml_env/bin/pip list | grep -E \"numpy|pandas|matplotlib\""] := by
  rw [c8_setup_venv_steps creds0 "ml_env" none true σ0 defaultPackages (by decide) rfl]
  decide

/-- Claim C9 (modelled from the spec, the keepalive thread being absent from
src/): on each 60-second tick the keepalive loop sends a no-op keepalive
signal while the transport reports itself active, keeping the session
connected; at the first tick where the transport is inactive or the check
raises, it marks the session disconnected and exits the loop, performing
nothing further. -/
theorem c9_keepalive_cycles (pre : List KAStatus) (s : KAStatus) (post : List KAStatus)
    (hpre : ∀ x ∈ pre, x = KAStatus.active) (hs : s ≠ KAStatus.active) :
    keepaliveRun pre
      = (true, (pre.map fun _ => [KAEv.sleep60, KAEv.sendKeepalive]).flatten)
    ∧ keepaliveRun (pre ++ s :: post)
      = (false, (pre.map fun _ => [KAEv.sleep60, KAEv.sendKeepalive]).flatten
          ++ [KAEv.sleep60, KAEv.markDisconnected]) := by
  induction pre with
  | nil =>
    refine ⟨rfl, ?_⟩
    cases s with
    | active => exact absurd rfl hs
    | inactive => rfl
    | raises => rfl
  | cons x xs ih =>
    have hx : x = KAStatus.active := hpre x (List.mem_cons_self x xs)
    have hxs : ∀ y ∈ xs, y = KAStatus.active :=
      fun y hy => hpre y (List.mem_cons_of_mem x hy)
    obtain ⟨ih1, ih2⟩ := ih hxs
    subst hx
    constructor
    · simp [keepaliveRun, ih1]
    · simp [keepaliveRun, ih2]

/-- Witness for C9: one active tick followed by an inactive tick (further
horizon ticks are ignored, the loop having exited). -/
theorem c9_witness :
    keepaliveRun [KAStatus.active]
      = (true, [KAEv.sleep60, KAEv.sendKeepalive])
    ∧ keepaliveRun ([KAStatus.active] ++ KAStatus.inactive :: [KAStatus.active])
      = (false, [KAEv.sleep60, KAEv.sendKeepalive,
                 KAEv.sleep60, KAEv.markDisconnected]) := by
  obtain ⟨h1, h2⟩ := c9_keepalive_cycles [KAStatus.active] KAStatus.inactive
    [KAStatus.active] (by intro x hx; simpa using hx) (by decide)
  exact ⟨h1.trans (by decide), h2.trans (by decide)⟩

/-- Claim C10: in python mode with no explicit environment name, the cell
magic issues exactly one extra remote command before the python command: a
probe testing for the hardcoded default environment (`test -f
ml_env/bin/python3 ...`); when the probe's stdout strips to "yes" the
python command uses `ml_env/bin/python3`, otherwise it falls back to the
system `python3`. -/
theorem c10_default_venv_probe (c : Creds) (cell : String) (σ : Oracle)
    (hc : ¬ c.hostname = "") :
    execCmds (vmsEv (some c) "python" cell σ)
      = [probeCmd,
         (if pyStrip (σ probeCmd).stdoutAll = "yes" then "ml_env/bin/python3"
          else "python3") ++ " << EOF\n" ++ cell ++ "\nEOF"]
    ∧ probeCmd = "test -f ml_env/bin/python3 && echo \"yes\" || echo \"no\"" := by
  have h1 : pyStrip "python" = "python" := by decide
  have h2 : parsePyMode "python" = some ⟨none, false, "persistent.py"⟩ := by decide
  have h3 : (decide (pyStrip "python" = "")
      || !startsWithStr "python" (pyStrip "python")) = false := by decide
  have h4 : startsWithStr "python" "python" = true := by decide
  have hv : vms (some c) "python" cell σ
      = Except.ok (Ev.connect c.hostname c.port c.username
          :: [Ev.exec probeCmd, Ev.readStdout probeCmd]
          ++ execBlockPrint σ
            ((if pyStrip (σ probeCmd).stdoutAll = "yes" then "ml_env/bin/python3"
              else "python3") ++ " << EOF\n" ++ cell ++ "\nEOF")) := by
    simp [vms, hc, h1, h2, h3, h4]
  refine ⟨?_, rfl⟩
  simp [vmsEv, hv, execCmds_execBlockPrint]

/-- Witness for C10 at a concrete connected state. -/
theorem c10_witness :
    execCmds (vmsEv (some creds0) "python" "print(1)" σ0)
      = [probeCmd,
         (if pyStrip (σ0 probeCmd).stdoutAll = "yes" then "ml_env/bin/python3"
          else "python3") ++ " << EOF\n" ++ "print(1)" ++ "\nEOF"] :=
  (c10_default_venv_probe creds0 "print(1)" σ0 (by decide)).1

end RemoteConnect

